import Mathlib

/-!
Verification of the user CRUD microservice (`src/app/routes.py`).

The five request handlers in `routes.py` are embedded as pure Lean
functions over an explicit database state (a list of rows).  The pieces
of the repository that `routes.py` imports but that are absent from the
source tree (`app/models.py` with the `User` entity and the
`UserSchema` marshmallow validator, and the SQLAlchemy session) are
modelled from the specification's data-model section.
-/

set_option autoImplicit false

namespace Microservice

/-- Modelled from the spec: the `User` entity of `app/models.py` —
`id` integer (server-generated, unique, immutable), `username` and
`email` string columns.  At the persistence level a string column may
be absent (`none`); that every persisted row has both fields present is
the invariant stated by the spec, not an assumption of the model. -/
structure User where
  id : Nat
  username : Option String
  email : Option String
  deriving DecidableEq, Repr

/-- The request body of a create/update call: each of the two schema
fields may be present or missing. -/
structure Payload where
  username : Option String
  email : Option String
  deriving DecidableEq, Repr

/-- A payload the schema has accepted: both fields present. -/
structure UserData where
  username : String
  email : String
  deriving DecidableEq, Repr

/-- A marshmallow-style field-level error map: pairs of field name and
message. -/
abbrev Errors := List (String × String)

/-- Modelled from the spec: `UserSchema` (absent `app/models.py`)
validates the email as an email format; modelled as requiring an `@`
character. -/
def emailOk (e : String) : Bool := e.data.contains '@'

def requiredMsg : String := "Missing data for required field."

def emailMsg : String := "Not a valid email address."

/-- Modelled from the spec: `UserSchema.load` (absent `app/models.py`) —
given an untyped input payload, produce a validated (username, email)
pair or fail with a field-level error map; `username` string required,
`email` string required and validated as an email format. -/
def loadUser (p : Payload) : Except Errors UserData :=
  match p.username, p.email with
  | some un, some em =>
      if emailOk em then .ok ⟨un, em⟩
      else .error [("email", emailMsg)]
  | some _, none => .error [("email", requiredMsg)]
  | none, some em =>
      if emailOk em then .error [("username", requiredMsg)]
      else .error [("username", requiredMsg), ("email", emailMsg)]
  | none, none => .error [("username", requiredMsg), ("email", requiredMsg)]

/-- The database table backing the `User` entity: its list of rows. -/
abbrev Db := List User

/-- `User.query.get(user_id)`: primary-key lookup. -/
def findUser (db : Db) (user_id : Nat) : Option User :=
  db.find? (fun u => u.id == user_id)

/-- Modelled from the spec: the server-generated id for a freshly
inserted row (`id` integer, server-generated, unique) — the successor
of the largest id in the table. -/
def freshId (db : Db) : Nat :=
  db.foldr (fun u m => max u.id m) 0 + 1

/-- The body of an HTTP response produced by the handlers. -/
inductive Body where
  /-- `jsonify(user_schema.dump(user))` -/
  | user (u : User)
  /-- `jsonify(users_schema.dump(users))` -/
  | users (l : List User)
  /-- `jsonify(\x7b'errors': err.messages\x7d)` -/
  | errors (e : Errors)
  /-- the `''` body of a 204 -/
  | empty
  /-- the HTML page `abort(404)` renders inside `get_or_404` -/
  | notFound
  /-- `\x7b'status': 'healthy', 'service': 'microservice-app'\x7d` -/
  | health
  deriving DecidableEq, Repr

structure Response where
  status : Nat
  body : Body
  deriving DecidableEq, Repr

/-- `GET /health`. -/
def health_check : Response := ⟨200, .health⟩

/-- `GET /users`: `User.query.all()` dumped as a list. -/
def get_users (db : Db) : Response := ⟨200, .users db⟩

/-- `POST /users` (`create_user` in `routes.py`): validate the body;
on failure return the error map with 400; on success insert a row with
a server-generated id and return it with 201. -/
def create_user (db : Db) (body : Payload) : Response × Db :=
  match loadUser body with
  | .error errs => (⟨400, .errors errs⟩, db)
  | .ok d =>
      let user : User := ⟨freshId db, some d.username, some d.email⟩
      (⟨201, .user user⟩, db ++ [user])

/-- `GET /users/{id}` (`get_user` in `routes.py`):
`User.query.get_or_404(user_id)` then dump. -/
def get_user (db : Db) (user_id : Nat) : Response :=
  match findUser db user_id with
  | none => ⟨404, .notFound⟩
  | some u => ⟨200, .user u⟩

/-- `PUT /users/{id}` (`update_user` in `routes.py`): load the row
(404 if absent), then validate the body (400 on failure), then
overwrite both fields and commit. -/
def update_user (db : Db) (user_id : Nat) (body : Payload) : Response × Db :=
  match findUser db user_id with
  | none => (⟨404, .notFound⟩, db)
  | some u =>
      match loadUser body with
      | .error errs => (⟨400, .errors errs⟩, db)
      | .ok d =>
          let u' : User := { u with username := some d.username, email := some d.email }
          (⟨200, .user u'⟩, db.map (fun v => if v.id == user_id then u' else v))

/-- `DELETE /users/{id}` (`delete_user` in `routes.py`): load the row
(404 if absent), delete it, commit, return `'', 204`. -/
def delete_user (db : Db) (user_id : Nat) : Response × Db :=
  match findUser db user_id with
  | none => (⟨404, .notFound⟩, db)
  | some _ => (⟨204, .empty⟩, db.filter (fun u => !(u.id == user_id)))

/-! ### Helper lemmas -/

theorem id_le_maxFold (db : Db) :
    ∀ u ∈ db, u.id ≤ db.foldr (fun u m => max u.id m) 0 := by
  induction db with
  | nil => intro u hu; cases hu
  | cons v t ih =>
      intro u hu
      rcases List.mem_cons.mp hu with h1 | h2
      · subst h1; exact le_max_left _ _
      · exact le_trans (ih u h2) (le_max_right _ _)

theorem freshId_not_mem (db : Db) : ∀ u ∈ db, u.id ≠ freshId db := by
  intro u hu
  have := id_le_maxFold db u hu
  simp only [freshId]
  omega

/-! ### Claim C1 -/

/-- Claim C1, counterexample: with an empty table and a body that fails
validation (both fields missing), `PUT /users/1` returns 404, not the
claimed 400 validation-error map — `update_user` loads the row before
validating the body. -/
theorem update_user_absent_invalid_is_404 :
    (update_user [] 1 ⟨none, none⟩).1.status = 404 ∧
      ¬ (update_user [] 1 ⟨none, none⟩).1.status = 400 := by
  decide

/-- Claim C1 (amended): the handler first loads the existing row and
only then validates the body; consequently, for every request whose id
has no persisted row, the response is the 404 not-found failure and the
table is unchanged, even when the body fails validation. -/
theorem update_user_loads_row_first (db : Db) (user_id : Nat) (p : Payload)
    (h : findUser db user_id = none) :
    update_user db user_id p = (⟨404, .notFound⟩, db) := by
  simp [update_user, h]

theorem update_user_loads_row_first_witness :
    update_user [] 2 ⟨none, none⟩ = (⟨404, .notFound⟩, []) :=
  update_user_loads_row_first [] 2 ⟨none, none⟩ (by rfl)

/-! ### Claim C2 -/

/-- Claim C2: for every `POST /users` whose body is a valid
(username, email) payload, the handler inserts exactly one row and
returns 201 with a body carrying the same username and email plus a
newly assigned id (one no existing row has). -/
theorem create_user_valid (db : Db) (un em : String) (h : emailOk em = true) :
    create_user db ⟨some un, some em⟩ =
      (⟨201, .user ⟨freshId db, some un, some em⟩⟩,
        db ++ [⟨freshId db, some un, some em⟩]) ∧
      ∀ u ∈ db, u.id ≠ freshId db := by
  refine ⟨?_, freshId_not_mem db⟩
  simp [create_user, loadUser, h]

theorem create_user_valid_witness :
    (create_user [] ⟨some "alice", some "a@b.c"⟩ =
      (⟨201, .user ⟨freshId [], some "alice", some "a@b.c"⟩⟩,
        [] ++ [⟨freshId [], some "alice", some "a@b.c"⟩]) ∧
      ∀ u ∈ ([] : Db), u.id ≠ freshId []) :=
  create_user_valid [] "alice" "a@b.c" (by decide)

/-! ### Claim C3 -/

/-- Claim C3: for every `POST /users` whose body is missing a required
field, the handler returns 400 with an error map mentioning the missing
field, and no row is inserted. -/
theorem create_user_missing_field (db : Db) (p : Payload)
    (h : p.username = none ∨ p.email = none) :
    (create_user db p).1.status = 400 ∧
      (create_user db p).2 = db ∧
      ∃ errs, (create_user db p).1.body = .errors errs ∧
        (p.username = none → ("username", requiredMsg) ∈ errs) ∧
        (p.email = none → ("email", requiredMsg) ∈ errs) := by
  rcases p with ⟨pu, pe⟩
  cases pu with
  | none =>
      cases pe with
      | none =>
          refine ⟨rfl, rfl, [("username", requiredMsg), ("email", requiredMsg)],
            rfl, ?_, ?_⟩ <;> simp
      | some em =>
          cases hem : emailOk em with
          | true =>
              refine ⟨?_, ?_, [("username", requiredMsg)], ?_, ?_, ?_⟩ <;>
                simp [create_user, loadUser, hem]
          | false =>
              refine ⟨?_, ?_, [("username", requiredMsg), ("email", emailMsg)],
                  ?_, ?_, ?_⟩ <;>
                simp [create_user, loadUser, hem]
  | some un =>
      cases pe with
      | none =>
          refine ⟨rfl, rfl, [("email", requiredMsg)], rfl, ?_, ?_⟩ <;> simp
      | some em => simp at h

theorem create_user_missing_field_witness :
    ((⟨none, some "a@b.c"⟩ : Payload).username = none ∨
        (⟨none, some "a@b.c"⟩ : Payload).email = none) ∧
      ((create_user [] ⟨none, some "a@b.c"⟩).1.status = 400 ∧
        (create_user [] ⟨none, some "a@b.c"⟩).2 = [] ∧
        ∃ errs, (create_user [] ⟨none, some "a@b.c"⟩).1.body = .errors errs ∧
          ((⟨none, some "a@b.c"⟩ : Payload).username = none →
            ("username", requiredMsg) ∈ errs) ∧
          ((⟨none, some "a@b.c"⟩ : Payload).email = none →
            ("email", requiredMsg) ∈ errs)) :=
  ⟨Or.inl rfl, create_user_missing_field [] ⟨none, some "a@b.c"⟩ (Or.inl rfl)⟩

/-! ### Claims C4 and C5 -/

theorem findUser_append_fresh (db : Db) (u₀ : User) (h : u₀.id = freshId db) :
    findUser (db ++ [u₀]) (freshId db) = some u₀ := by
  have hnone : db.find? (fun u => u.id == freshId db) = none :=
    List.find?_eq_none.mpr (fun u hu => by simp [freshId_not_mem db u hu])
  simp [findUser, List.find?_append, hnone, h]

/-- Claim C4: for every user created via `POST /users` with a valid
body, a subsequent `GET /users/{id}` with the assigned id returns 200
with the identical username and email. -/
theorem create_then_get_roundtrip (db : Db) (un em : String)
    (h : emailOk em = true) (u : User)
    (hu : (create_user db ⟨some un, some em⟩).1.body = .user u) :
    get_user (create_user db ⟨some un, some em⟩).2 u.id = ⟨200, .user u⟩ ∧
      u.username = some un ∧ u.email = some em := by
  have hc : create_user db ⟨some un, some em⟩ =
      (⟨201, .user ⟨freshId db, some un, some em⟩⟩,
        db ++ [⟨freshId db, some un, some em⟩]) := by
    simp [create_user, loadUser, h]
  rw [hc] at hu
  have hu2 : Body.user ⟨freshId db, some un, some em⟩ = Body.user u := hu
  injection hu2 with h2
  subst h2
  rw [hc]
  have hg := findUser_append_fresh db ⟨freshId db, some un, some em⟩ rfl
  exact ⟨by simp only [get_user, hg], rfl, rfl⟩

theorem create_then_get_roundtrip_witness :
    (get_user (create_user [] ⟨some "bob", some "b@c.d"⟩).2
        (⟨freshId [], some "bob", some "b@c.d"⟩ : User).id =
        ⟨200, .user ⟨freshId [], some "bob", some "b@c.d"⟩⟩ ∧
      (⟨freshId [], some "bob", some "b@c.d"⟩ : User).username = some "bob" ∧
      (⟨freshId [], some "bob", some "b@c.d"⟩ : User).email = some "b@c.d") :=
  create_then_get_roundtrip [] "bob" "b@c.d" (by decide)
    ⟨freshId [], some "bob", some "b@c.d"⟩ (by decide)

theorem findUser_map_replace (db : Db) (user_id : Nat) (u u' : User)
    (hfind : findUser db user_id = some u) (h : u'.id = u.id) :
    findUser (db.map fun v => if v.id == user_id then u' else v) user_id =
      some u' := by
  have hfind' : List.find? (fun w => w.id == user_id) db = some u := hfind
  have hid0 := List.find?_some hfind'
  have hid : (u.id == user_id) = true := hid0
  induction db with
  | nil => simp [findUser] at hfind
  | cons v t ih =>
      by_cases hv : (v.id == user_id) = true
      · have hpred : (u'.id == user_id) = true := by rw [h]; exact hid
        simp [findUser, List.find?, hv, hpred]
      · have ht : findUser t user_id = some u := by
          simpa [findUser, List.find?, hv] using hfind
        have hrec := ih ht ht
        simpa [findUser, List.find?, hv] using hrec

/-- Claim C5: for every `PUT /users/{id}` on an existing row with a
valid body, both fields of that row are overwritten and persisted, the
response is 200 with the updated user, and a subsequent
`GET /users/{id}` returns the new values. -/
theorem update_user_valid (db : Db) (user_id : Nat) (u : User) (un em : String)
    (hfind : findUser db user_id = some u) (hem : emailOk em = true) :
    (update_user db user_id ⟨some un, some em⟩).1 =
        ⟨200, .user { u with username := some un, email := some em }⟩ ∧
      get_user (update_user db user_id ⟨some un, some em⟩).2 user_id =
        ⟨200, .user { u with username := some un, email := some em }⟩ := by
  have hrun : update_user db user_id ⟨some un, some em⟩ =
      (⟨200, .user { u with username := some un, email := some em }⟩,
        db.map fun v =>
          if v.id == user_id
          then { u with username := some un, email := some em } else v) := by
    simp [update_user, hfind, loadUser, hem]
  rw [hrun]
  have hg := findUser_map_replace db user_id u
    { u with username := some un, email := some em } hfind rfl
  exact ⟨rfl, by simp only [get_user, hg]⟩

theorem update_user_valid_witness :
    ((update_user [⟨1, some "a", some "a@b"⟩] 1 ⟨some "z", some "z@w"⟩).1 =
        ⟨200, .user { (⟨1, some "a", some "a@b"⟩ : User) with
          username := some "z", email := some "z@w" }⟩ ∧
      get_user (update_user [⟨1, some "a", some "a@b"⟩] 1
          ⟨some "z", some "z@w"⟩).2 1 =
        ⟨200, .user { (⟨1, some "a", some "a@b"⟩ : User) with
          username := some "z", email := some "z@w" }⟩) :=
  update_user_valid [⟨1, some "a", some "a@b"⟩] 1 ⟨1, some "a", some "a@b"⟩
    "z" "z@w" (by decide) (by decide)

/-- Claim C6: for every id with no persisted row, `GET /users/{id}`
returns status 404. -/
theorem get_user_absent_404 (db : Db) (user_id : Nat)
    (h : findUser db user_id = none) :
    get_user db user_id = ⟨404, .notFound⟩ := by
  simp [get_user, h]

theorem get_user_absent_404_witness :
    get_user [] 7 = ⟨404, .notFound⟩ :=
  get_user_absent_404 [] 7 (by rfl)

/-! ### Claim C7 -/

theorem findUser_filter_self (db : Db) (user_id : Nat) :
    findUser (db.filter fun u => !(u.id == user_id)) user_id = none := by
  apply List.find?_eq_none.mpr
  intro x hx
  have hmem := List.mem_filter.mp hx
  simpa using hmem.2

/-- Claim C7: for every existing user, `DELETE /users/{id}` removes the
row and returns 204 with an empty body; a subsequent `GET /users/{id}`
returns 404, while every row with a different id is kept. -/
theorem delete_user_existing (db : Db) (user_id : Nat) (u : User)
    (hfind : findUser db user_id = some u) :
    (delete_user db user_id).1 = ⟨204, .empty⟩ ∧
      get_user (delete_user db user_id).2 user_id = ⟨404, .notFound⟩ ∧
      ∀ v ∈ db, v.id ≠ user_id → v ∈ (delete_user db user_id).2 := by
  have hd : delete_user db user_id =
      (⟨204, .empty⟩, db.filter fun u => !(u.id == user_id)) := by
    simp [delete_user, hfind]
  rw [hd]
  refine ⟨rfl, by simp only [get_user, findUser_filter_self], ?_⟩
  intro v hv hne
  exact List.mem_filter.mpr ⟨hv, by simp [hne]⟩

theorem delete_user_existing_witness :
    ((delete_user [⟨1, some "a", some "a@b"⟩] 1).1 = ⟨204, .empty⟩ ∧
      get_user (delete_user [⟨1, some "a", some "a@b"⟩] 1).2 1 =
        ⟨404, .notFound⟩ ∧
      ∀ v ∈ ([⟨1, some "a", some "a@b"⟩] : Db), v.id ≠ 1 →
        v ∈ (delete_user [⟨1, some "a", some "a@b"⟩] 1).2) :=
  delete_user_existing [⟨1, some "a", some "a@b"⟩] 1 ⟨1, some "a", some "a@b"⟩
    (by rfl)

/-! ### Claim C8 -/

/-- Claim C8: the id of a persisted user is immutable under PUT — for
every `PUT /users/{id}` on an existing row with a valid body, the user
in the response keeps the row's id, and the multiset of ids in the
table is unchanged. -/
theorem update_user_id_immutable (db : Db) (user_id : Nat) (u : User)
    (un em : String) (hfind : findUser db user_id = some u)
    (hem : emailOk em = true) :
    (∀ b, (update_user db user_id ⟨some un, some em⟩).1.body = .user b →
        b.id = u.id) ∧
      ((update_user db user_id ⟨some un, some em⟩).2).map (fun v => v.id) =
        db.map (fun v => v.id) := by
  have hrun : update_user db user_id ⟨some un, some em⟩ =
      (⟨200, .user { u with username := some un, email := some em }⟩,
        db.map fun v =>
          if v.id == user_id
          then { u with username := some un, email := some em } else v) := by
    simp [update_user, hfind, loadUser, hem]
  have hfind' : List.find? (fun w => w.id == user_id) db = some u := hfind
  have hid0 := List.find?_some hfind'
  have hid : u.id = user_id := eq_of_beq hid0
  rw [hrun]
  constructor
  · intro b hb
    have hb2 : Body.user { u with username := some un, email := some em } =
        Body.user b := hb
    injection hb2 with h2
    rw [← h2]
  · rw [List.map_map]
    apply List.map_congr_left
    intro v hv
    by_cases hveq : (v.id == user_id) = true
    · simp only [Function.comp, if_pos hveq]
      exact hid.trans (eq_of_beq hveq).symm
    · simp only [Function.comp, if_neg hveq]

theorem update_user_id_immutable_witness :
    ((∀ b, (update_user [⟨5, some "a", some "a@b"⟩] 5
          ⟨some "z", some "z@w"⟩).1.body = .user b → b.id = 5) ∧
      ((update_user [⟨5, some "a", some "a@b"⟩] 5
          ⟨some "z", some "z@w"⟩).2).map (fun v => v.id) =
        ([⟨5, some "a", some "a@b"⟩] : Db).map (fun v => v.id)) :=
  update_user_id_immutable [⟨5, some "a", some "a@b"⟩] 5
    ⟨5, some "a", some "a@b"⟩ "z" "z@w" (by rfl) (by decide)

/-! ### Claim C9 -/

/-- The spec's row invariant: username and email are both present. -/
def rowOk (u : User) : Prop := u.username ≠ none ∧ u.email ≠ none

/-- The spec's table invariant: every persisted row satisfies `rowOk`. -/
def dbOk (db : Db) : Prop := ∀ u ∈ db, rowOk u

/-- Claim C9: every mutating endpoint (POST, PUT, DELETE) preserves the
invariant that every persisted row has non-null username and email. -/
theorem handlers_preserve_nonnull (db : Db) (p : Payload) (user_id : Nat)
    (h : dbOk db) :
    dbOk (create_user db p).2 ∧ dbOk (update_user db user_id p).2 ∧
      dbOk (delete_user db user_id).2 := by
  refine ⟨?_, ?_, ?_⟩
  · cases hl : loadUser p with
    | error errs => simpa [create_user, hl] using h
    | ok d =>
        simp only [create_user, hl]
        intro u hu
        rcases List.mem_append.mp hu with hu1 | hu2
        · exact h u hu1
        · have : u = ⟨freshId db, some d.username, some d.email⟩ := by
            simpa using hu2
          subst this
          exact ⟨Option.some_ne_none _, Option.some_ne_none _⟩
  · cases hf : findUser db user_id with
    | none => simpa [update_user, hf] using h
    | some u =>
        cases hl : loadUser p with
        | error errs => simpa [update_user, hf, hl] using h
        | ok d =>
            simp only [update_user, hf, hl]
            intro w hw
            rcases List.mem_map.mp hw with ⟨v, hv, hveq⟩
            by_cases hc : (v.id == user_id) = true
            · rw [← hveq]
              simp only [if_pos hc]
              exact ⟨Option.some_ne_none _, Option.some_ne_none _⟩
            · rw [← hveq]
              simp only [if_neg hc]
              exact h v hv
  · cases hf : findUser db user_id with
    | none => simpa [delete_user, hf] using h
    | some u =>
        simp only [delete_user, hf]
        intro w hw
        exact h w (List.mem_filter.mp hw).1

theorem handlers_preserve_nonnull_witness :
    (dbOk (create_user [] ⟨some "a", some "a@b"⟩).2 ∧
      dbOk (update_user [] 1 ⟨some "a", some "a@b"⟩).2 ∧
      dbOk (delete_user [] 1).2) :=
  handlers_preserve_nonnull [] ⟨some "a", some "a@b"⟩ 1
    (by intro u hu; cases hu)

/-! ### Claim C10 -/

/-- Claim C10: for every `PUT /users/{id}` on an existing row whose body
fails validation, the handler returns the 400 error map and the table —
in particular the stored row's username and email — is unchanged. -/
theorem update_user_invalid_unchanged (db : Db) (user_id : Nat) (u : User)
    (p : Payload) (errs : Errors) (hfind : findUser db user_id = some u)
    (herr : loadUser p = .error errs) :
    update_user db user_id p = (⟨400, .errors errs⟩, db) := by
  simp [update_user, hfind, herr]

theorem update_user_invalid_unchanged_witness :
    update_user [⟨1, some "a", some "a@b"⟩] 1 ⟨none, none⟩ =
      (⟨400, .errors [("username", requiredMsg), ("email", requiredMsg)]⟩,
        [⟨1, some "a", some "a@b"⟩]) :=
  update_user_invalid_unchanged [⟨1, some "a", some "a@b"⟩] 1
    ⟨1, some "a", some "a@b"⟩ ⟨none, none⟩
    [("username", requiredMsg), ("email", requiredMsg)] (by rfl) (by rfl)

end Microservice
